import Mathlib

/-!
Verification development for the natural-language task-parsing and
subtask-generation pipeline of the todo1 repository.

The definitions below are a shallow embedding of the relevant JavaScript
source files:
  * `api/ai-task-processor.js` (second, cache-enabled revision in the file:
    the request handler with its response cache, the quick-match table
    `getQuickParseResult`, the heuristic parser `smartParseTask` and its
    helper functions),
  * `src/lib/ai-client.js` (`makeRequest`, `classifyError`, `shouldRetry`,
    and `taskProcessor.smartParse`),
  * `src/components/SmartTaskInput.js` (`processWithAI`, `handleInputChange`,
    `handleSubmit`, `handleAddSelectedSuggestions`, `handleSuggestionClick`).

Modelling conventions:
  * JavaScript strings are Lean `String`s (all inputs of interest are ASCII);
    JavaScript numbers are `ℚ` (the spec reasons about exact arithmetic such
    as `confidence = 0.8`, so rationals stand in for IEEE doubles) or `ℕ`
    for statuses, timestamps and indices.
  * A JavaScript value that may be `undefined`/`null` is an `Option`.
    The JS `x || d` default idiom is modelled by `jsOr*` helpers that treat
    `none`, the empty string and `0` as falsy, exactly like JS.
  * The regular expressions of `smartParseTask` are embedded by a small
    backtracking matcher (`RE` / `matchRE`) whose alternation, greediness
    and word-boundary semantics follow the JS regex engine; the fuel
    argument only bounds recursion depth and is never exhausted on the
    inputs considered here (quantified bodies always consume a character).
  * Asynchronous control flow is embedded as explicit event traces or call
    traces: a function that awaits external calls becomes a function from
    the outcomes of those calls to the ordered list of requests it issues.
-/

set_option maxRecDepth 8000

namespace TodoAI

/-! ## Basic JS string helpers -/

/-- Lower-case an ASCII character, as `String.prototype.toLowerCase` does. -/
def toLowerChar (c : Char) : Char :=
  if 'A' ≤ c ∧ c ≤ 'Z' then Char.ofNat (c.toNat + 32) else c

/-- JS `toLowerCase` on a string. -/
def lowerStr (s : String) : String :=
  String.mk (s.data.map toLowerChar)

/-- Word character for the regex `\b` boundary: `[A-Za-z0-9_]`. -/
def isWordChar (c : Char) : Bool :=
  (decide ('a' ≤ c ∧ c ≤ 'z')) || (decide ('A' ≤ c ∧ c ≤ 'Z')) ||
    (decide ('0' ≤ c ∧ c ≤ '9')) || (c == '_')

/-- Whitespace for regex `\s` and JS `trim` (ASCII subset). -/
def isWsChar (c : Char) : Bool :=
  (c == ' ') || (c == '\t') || (c == '\n') || (c == '\r') || (c == '\x0b') || (c == '\x0c')

/-- JS `String.prototype.trim`. -/
def jsTrim (s : String) : String :=
  String.mk (((s.data.dropWhile isWsChar).reverse.dropWhile isWsChar).reverse)

/-- Helper for `collapseWs`: the boolean records whether the previous
character was whitespace (already emitted as a single space). -/
def collapseWsAux : List Char → Bool → List Char
  | [], _ => []
  | c :: t, prevWs =>
    if isWsChar c then
      (if prevWs then collapseWsAux t true else ' ' :: collapseWsAux t true)
    else c :: collapseWsAux t false

/-- JS `s.replace(/\s+/g, " ")` behaviour: every whitespace run becomes one space. -/
def collapseWs (s : String) : String :=
  String.mk (collapseWsAux s.data false)

/-- Helper for `containsSubstr`. -/
def listContainsAux : List Char → List Char → Bool
  | hay, needle =>
    if needle.isPrefixOf hay then true
    else match hay with
      | [] => false
      | _ :: t => listContainsAux t needle

/-- JS `String.prototype.includes`. -/
def containsSubstr (hay needle : String) : Bool :=
  listContainsAux hay.data needle.data

/-- JS `String.prototype.startsWith`. -/
def strStartsWith (s p : String) : Bool :=
  p.data.isPrefixOf s.data

/-- Helper for `removeFirstOccur`. -/
def removeFirstAux : List Char → List Char → List Char
  | hay, tgt =>
    if tgt.isPrefixOf hay then hay.drop tgt.length
    else match hay with
      | [] => []
      | c :: t => c :: removeFirstAux t tgt

/-- JS `s.replace(target, "")` where `target` is a plain string: removes the
first occurrence of `target` from `s` (no-op when absent). -/
def removeFirstOccur (s target : String) : String :=
  String.mk (removeFirstAux s.data target.data)

/-- JS `String.prototype.slice(n)`. -/
def dropChars (s : String) (n : ℕ) : String :=
  String.mk (s.data.drop n)

/-- JS `x || d` for a possibly-absent string (`undefined`/`null` and the
empty string are falsy). -/
def jsOrOptStr (o : Option String) (d : String) : String :=
  match o with
  | none => d
  | some s => if s = "" then d else s

/-- JS `x || d` for a present string (the empty string is falsy). -/
def jsOrStr (s d : String) : String :=
  if s = "" then d else s

/-- JS `x || d` for a possibly-absent number (`undefined`/`null` and `0`
are falsy). -/
def jsOrOptQ (o : Option ℚ) (d : ℚ) : ℚ :=
  match o with
  | none => d
  | some q => if q = 0 then d else q

/-- Decimal digit test. -/
def isDigitChar (c : Char) : Bool :=
  decide ('0' ≤ c ∧ c ≤ '9')

/-- Uppercase ASCII letter test (regex `[A-Z]`). -/
def isUpperChar (c : Char) : Bool :=
  decide ('A' ≤ c ∧ c ≤ 'Z')

/-- Lowercase ASCII letter test (regex `[a-z]`). -/
def isLowerChar (c : Char) : Bool :=
  decide ('a' ≤ c ∧ c ≤ 'z')

/-- JS `s.split("-")[0]`: the characters before the first dash. -/
def takeBeforeDash (s : String) : String :=
  String.mk (s.data.takeWhile (fun c => c != '-'))

/-- Digits-to-number accumulator for `jsParseIntOpt`. -/
def digitsToNat : List Char → ℕ → ℕ
  | [], acc => acc
  | c :: t, acc => digitsToNat t (acc * 10 + (c.toNat - '0'.toNat))

/-- JS `parseInt(s, 10)` restricted to the shapes produced by the component
(`"<index>-<text>"` identifiers): reads the leading decimal digits; yields
`none` (JS `NaN`) when there is no leading digit. -/
def jsParseIntOpt (s : String) : Option ℕ :=
  let ds := s.data.takeWhile isDigitChar
  if ds = [] then none else some (digitsToNat ds 0)

/-! ## A small backtracking regex matcher

Just enough of the JS regex semantics to embed the literal patterns of
`smartParseTask`: literal characters (case-sensitive and insensitive),
character classes, sequencing, ordered alternation, greedy counted
repetition, one capturing group, and the `\b` word boundary. -/

/-- Regex abstract syntax. `rep lo hi` is the greedy `{lo,hi}` quantifier;
`grp` marks the single capturing group a pattern may have. -/
inductive RE where
  | eps : RE
  | chr (c : Char) : RE
  | chrCI (c : Char) : RE
  | cls (p : Char → Bool) : RE
  | seq (a b : RE) : RE
  | alt (a b : RE) : RE
  | rep (lo hi : ℕ) (a : RE) : RE
  | grp (a : RE) : RE
  | wordB : RE

/-- One way a regex can match a prefix of the remaining input. -/
structure MRes where
  consumed : List Char
  cap : Option (List Char)
  rest : List Char

/-- The character immediately before the rest of the input, after consuming
`consumed` starting from previous character `prev`. -/
def lastPrev (consumed : List Char) (prev : Option Char) : Option Char :=
  match consumed.getLast? with
  | some c => some c
  | none => prev

/-- Word-boundary test between the previous character and the next one. -/
def atBoundary (prev next : Option Char) : Bool :=
  (match prev with | some c => isWordChar c | none => false) !=
    (match next with | some c => isWordChar c | none => false)

/-- All matches of a regex at the current position, in the backtracking
priority order of the JS engine (first element = the match JS would pick).
The fuel bounds recursion depth; every recursive call decrements it. -/
def matchRE : ℕ → RE → Option Char → List Char → List MRes
  | 0, _, _, _ => []
  | _ + 1, .eps, _, cs => [⟨[], none, cs⟩]
  | _ + 1, .chr c, _, cs =>
    match cs with
    | [] => []
    | d :: rest => if d == c then [⟨[d], none, rest⟩] else []
  | _ + 1, .chrCI c, _, cs =>
    match cs with
    | [] => []
    | d :: rest => if toLowerChar d == toLowerChar c then [⟨[d], none, rest⟩] else []
  | _ + 1, .cls p, _, cs =>
    match cs with
    | [] => []
    | d :: rest => if p d then [⟨[d], none, rest⟩] else []
  | f + 1, .seq a b, prev, cs =>
    (matchRE f a prev cs).flatMap (fun r1 =>
      (matchRE f b (lastPrev r1.consumed prev) r1.rest).map (fun r2 =>
        ⟨r1.consumed ++ r2.consumed, r1.cap <|> r2.cap, r2.rest⟩))
  | f + 1, .alt a b, prev, cs => matchRE f a prev cs ++ matchRE f b prev cs
  | f + 1, .rep lo hi a, prev, cs =>
    if hi = 0 then (if lo = 0 then [⟨[], none, cs⟩] else [])
    else
      (matchRE f a prev cs).flatMap (fun r1 =>
        (matchRE f (.rep (lo - 1) (hi - 1) a) (lastPrev r1.consumed prev) r1.rest).map
          (fun r2 => ⟨r1.consumed ++ r2.consumed, r1.cap <|> r2.cap, r2.rest⟩)) ++
        (if lo = 0 then [⟨[], none, cs⟩] else [])
  | f + 1, .grp a, prev, cs =>
    (matchRE f a prev cs).map (fun r => ⟨r.consumed, some r.consumed, r.rest⟩)
  | _ + 1, .wordB, prev, cs =>
    if atBoundary prev cs.head? then [⟨[], none, cs⟩] else []

/-- Recursion-depth fuel for the matcher: far more than the nesting depth
any of the embedded patterns can reach on the inputs considered. -/
def reFuel : ℕ := 300

/-- Scan start positions left to right (as the JS engine does for an
unanchored regex) and return the first match. -/
def execFromAux (r : RE) : Option Char → List Char → Option (List Char × Option (List Char))
  | prev, cs =>
    match matchRE reFuel r prev cs with
    | res :: _ => some (res.consumed, res.cap)
    | [] =>
      match cs with
      | [] => none
      | c :: rest => execFromAux r (some c) rest

/-- JS `s.match(r)` for a non-global regex: `some (match0, group1?)` or
`none`. -/
def reMatch (r : RE) (s : String) : Option (String × Option String) :=
  (execFromAux r none s.data).map (fun p => (String.mk p.1, p.2.map String.mk))

/-- JS `r.test(s)`. -/
def reTest (r : RE) (s : String) : Bool :=
  (reMatch r s).isSome

/-- Case-insensitive literal (each character matched with `chrCI`). -/
def litCI (s : String) : RE :=
  s.data.foldr (fun c r => RE.seq (RE.chrCI c) r) RE.eps

/-- Case-sensitive literal. -/
def litCS (s : String) : RE :=
  s.data.foldr (fun c r => RE.seq (RE.chr c) r) RE.eps

/-- Ordered alternation of a list of regexes (JS `a|b|c`). -/
def altList : List RE → RE
  | [] => RE.cls (fun _ => false)
  | [r] => r
  | r :: t => RE.alt r (altList t)

/-- Sequence of a list of regexes. -/
def seqList : List RE → RE
  | [] => RE.eps
  | [r] => r
  | r :: t => RE.seq r (seqList t)

/-- Upper bound used for the unbounded `+` and `*` quantifiers; larger than
any input length considered (quantified bodies consume ≥ 1 character). -/
def reMany : ℕ := 64

/-! ## Data model

`ParsedOpt` is the `parsed` object of a server response with every field
possibly absent (a model-backed response may omit or add anything);
`ServerData` is the whole response body the client receives;
`ClientParsedTask` is the normalized object `taskProcessor.smartParse`
returns to the component (ai-client.js lines 169-182). -/

/-- The `parsed` sub-object of a server response; all fields optional. -/
structure ParsedOpt where
  taskName : Option String := none
  date : Option String := none
  time : Option String := none
  priority : Option String := none
  people : Option (List String) := none
  category : Option String := none
  tags : Option (List String) := none
  estimatedDuration : Option String := none
  suggestions : Option (List String) := none
deriving DecidableEq, Repr

/-- A response body of the `/api/ai-task-processor` endpoint. -/
structure ServerData where
  success : Bool := true
  fastResponse : Option Bool := none
  parsed : Option ParsedOpt := none
  confidence : Option ℚ := none
  aiPowered : Option Bool := none
  cached : Option Bool := none
deriving DecidableEq, Repr

/-- The ParsedTask object `taskProcessor.smartParse` yields to the UI. -/
structure ClientParsedTask where
  taskName : String
  date : Option String := none
  time : Option String := none
  priority : String := "medium"
  people : List String := []
  category : String := "general"
  tags : List String := []
  estimatedDuration : String := "30 minutes"
  suggestions : List String := []
  confidence : ℚ := 0.5
  aiPowered : Bool := false
  cached : Bool := false
deriving DecidableEq, Repr

/-! ## Heuristic parser (`smartParseTask`, ai-task-processor.js 792-877)

The regex patterns below transcribe the `patterns` table at lines 794-813.
Capturing groups are kept only where the source reads `match[1]` (the
person patterns); elsewhere only `match[0]` is used. -/

/-- `\d` class. -/
def digitRE : RE := RE.cls isDigitChar

/-- `\s` class. -/
def wsRE : RE := RE.cls isWsChar

/-- `/\b(today|tomorrow|next week|next month)\b/i`. -/
def datePattern1 : RE :=
  seqList [RE.wordB,
    altList [litCI "today", litCI "tomorrow", litCI "next week", litCI "next month"],
    RE.wordB]

/-- `/\b(monday|...|sunday)\b/i`. -/
def datePattern2 : RE :=
  seqList [RE.wordB,
    altList [litCI "monday", litCI "tuesday", litCI "wednesday", litCI "thursday",
      litCI "friday", litCI "saturday", litCI "sunday"],
    RE.wordB]

/-- `/\b(\d{1,2}\/\d{1,2}\/?\d{0,4})\b/`. -/
def datePattern3 : RE :=
  seqList [RE.wordB, RE.rep 1 2 digitRE, RE.chr '/', RE.rep 1 2 digitRE,
    RE.rep 0 1 (RE.chr '/'), RE.rep 0 4 digitRE, RE.wordB]

/-- `/\b(january|...|december)\s+\d{1,2}\b/i`. -/
def datePattern4 : RE :=
  seqList [RE.wordB,
    altList [litCI "january", litCI "february", litCI "march", litCI "april",
      litCI "may", litCI "june", litCI "july", litCI "august", litCI "september",
      litCI "october", litCI "november", litCI "december"],
    RE.rep 1 reMany wsRE, RE.rep 1 2 digitRE, RE.wordB]

/-- The ordered `datePatterns` list. -/
def datePatterns : List RE := [datePattern1, datePattern2, datePattern3, datePattern4]

/-- `/\b(\d{1,2}:\d{2}\s?(am|pm)?)\b/i`. -/
def timePattern1 : RE :=
  seqList [RE.wordB, RE.rep 1 2 digitRE, RE.chr ':', RE.rep 2 2 digitRE,
    RE.rep 0 1 wsRE, RE.rep 0 1 (RE.alt (litCI "am") (litCI "pm")), RE.wordB]

/-- `/\b(morning|afternoon|evening|night)\b/i`. -/
def timePattern2 : RE :=
  seqList [RE.wordB,
    altList [litCI "morning", litCI "afternoon", litCI "evening", litCI "night"],
    RE.wordB]

/-- The ordered `timePatterns` list. -/
def timePatterns : List RE := [timePattern1, timePattern2]

/-- `/\b(urgent|asap|important|high priority|critical)\b/i`. -/
def priorityHighRE : RE :=
  seqList [RE.wordB,
    altList [litCI "urgent", litCI "asap", litCI "important", litCI "high priority",
      litCI "critical"],
    RE.wordB]

/-- `/\b(low priority|when possible|eventually)\b/i`. -/
def priorityLowRE : RE :=
  seqList [RE.wordB,
    altList [litCI "low priority", litCI "when possible", litCI "eventually"],
    RE.wordB]

/-- `[A-Z][a-z]+(?:\s+[A-Z][a-z]+)*` — a capitalized name. -/
def nameRE : RE :=
  seqList [RE.cls isUpperChar, RE.rep 1 reMany (RE.cls isLowerChar),
    RE.rep 0 reMany
      (seqList [RE.rep 1 reMany wsRE, RE.cls isUpperChar, RE.rep 1 reMany (RE.cls isLowerChar)])]

/-- `/\bwith\s+([A-Z][a-z]+(?:\s+[A-Z][a-z]+)*)\b/` (case-sensitive). -/
def personPattern1 : RE :=
  seqList [RE.wordB, litCS "with", RE.rep 1 reMany wsRE, RE.grp nameRE, RE.wordB]

/-- `/\b([A-Z][a-z]+(?:\s+[A-Z][a-z]+)*)\s+and\s+me\b/` (case-sensitive). -/
def personPattern2 : RE :=
  seqList [RE.wordB, RE.grp nameRE, RE.rep 1 reMany wsRE, litCS "and",
    RE.rep 1 reMany wsRE, litCS "me", RE.wordB]

/-- The ordered `personPatterns` list. -/
def personPatterns : List RE := [personPattern1, personPattern2]

/-- The `for (const pattern of ...)` loops with `break` at lines 822-840:
first pattern whose `input.match` is non-null wins; yields `match[0]`. -/
def extractFirstMatch : List RE → String → Option String
  | [], _ => none
  | p :: ps, input =>
    match reMatch p input with
    | some (m0, _) => some m0
    | none => extractFirstMatch ps input

/-- Lines 842-847: priority from the two priority regexes. -/
def heurPriority (input : String) : String :=
  if reTest priorityHighRE input then "high"
  else if reTest priorityLowRE input then "low"
  else "medium"

/-- One iteration of the person loop (lines 849-856): match against the
original input, push `match[1]`, remove `match[0]` from the task name. -/
def heurPeopleStep (input : String) (acc : List String × String) (pat : RE) :
    List String × String :=
  match reMatch pat input with
  | some (m0, g) => (acc.1 ++ [g.getD ""], jsTrim (removeFirstOccur acc.2 m0))
  | none => acc

/-- The whole person loop over both person patterns. -/
def heurPeople (input : String) (taskName : String) : List String × String :=
  personPatterns.foldl (heurPeopleStep input) ([], taskName)

/-- `inferCategory` (lines 1039-1055): ordered keyword buckets, substring
containment on the lower-cased input, default `general`. -/
def categoriesList : List (String × List String) :=
  [("work", ["meeting", "project", "presentation", "email", "call", "deadline"]),
   ("personal", ["family", "friend", "home", "health", "exercise", "hobby"]),
   ("shopping", ["buy", "purchase", "shop", "grocery", "store"]),
   ("health", ["doctor", "appointment", "exercise", "gym", "medicine"]),
   ("finance", ["pay", "bill", "budget", "bank", "tax", "money"])]

/-- `inferCategory` (ai-task-processor.js 1039-1055). -/
def inferCategory (input : String) : String :=
  let lowerInput := lowerStr input
  match categoriesList.find? (fun kv => kv.2.any (fun k => containsSubstr lowerInput k)) with
  | some kv => kv.1
  | none => "general"

/-- `generateSmartTags` (lines 1057-1067): independent keyword checks. -/
def generateSmartTags (input : String) : List String :=
  let l := lowerStr input
  (if containsSubstr l "urgent" || containsSubstr l "asap" then ["urgent"] else []) ++
    (if containsSubstr l "meeting" || containsSubstr l "call" then ["meeting"] else []) ++
    (if containsSubstr l "email" || containsSubstr l "message" then ["communication"] else []) ++
    (if containsSubstr l "buy" || containsSubstr l "purchase" then ["shopping"] else [])

/-- The ordered duration buckets of `estimateDuration` (lines 1069-1086). -/
def durationKeywords : List (String × List String) :=
  [("15 minutes", ["quick", "brief", "short"]),
   ("30 minutes", ["call", "standup", "check-in"]),
   ("1 hour", ["meeting", "appointment", "review"]),
   ("2 hours", ["project work", "deep work", "analysis"]),
   ("4 hours", ["workshop", "training", "major task"]),
   ("1 day", ["project", "research", "planning"])]

/-- `estimateDuration` (ai-task-processor.js 1069-1086). -/
def estimateDuration (input : String) : String :=
  let lowerInput := lowerStr input
  match durationKeywords.find? (fun kv => kv.2.any (fun k => containsSubstr lowerInput k)) with
  | some kv => kv.1
  | none => "30 minutes"

/-- The category fallback table of `generateTaskSuggestions` (lines 1183-1189). -/
def categoryFallbacks : List (String × List String) :=
  [("work", ["Block focus time", "Notify relevant stakeholders", "Prepare materials",
      "Set deadline reminder"]),
   ("personal", ["Set location reminder", "Check weather forecast", "Inform family/friends",
      "Prepare backup plan"]),
   ("health", ["Set recurring reminder", "Research preparation steps",
      "Contact healthcare provider", "Track in health app"]),
   ("finance", ["Check budget impact", "Review account balances", "Set payment reminder",
      "Save receipts"]),
   ("home", ["Check needed supplies", "Clear schedule time", "Prepare workspace",
      "Set completion reminder"])]

/-- `generateTaskSuggestions` (ai-task-processor.js 1088-1197); the
`category` argument may be `undefined` at the quick-match call site. -/
def generateTaskSuggestions (taskName : String) (category : Option String) : List String :=
  let lowerTask := lowerStr taskName
  if containsSubstr lowerTask "call" || containsSubstr lowerTask "phone" ||
      containsSubstr lowerTask "contact" then
    ["Find their contact information", "Prepare talking points",
     "Choose appropriate time zone", "Set follow-up reminder"]
  else if containsSubstr lowerTask "meeting" || containsSubstr lowerTask "interview" then
    ["Send calendar invite", "Prepare agenda", "Research attendees", "Book meeting room"]
  else if containsSubstr lowerTask "email" || containsSubstr lowerTask "message" ||
      containsSubstr lowerTask "write" then
    ["Draft key points", "Review recipient details", "Set send time", "Prepare attachments"]
  else if containsSubstr lowerTask "buy" || containsSubstr lowerTask "purchase" ||
      containsSubstr lowerTask "shop" then
    ["Check budget availability", "Compare prices online", "Read reviews",
     "Check return policy"]
  else if containsSubstr lowerTask "plan" || containsSubstr lowerTask "organize" ||
      containsSubstr lowerTask "prepare" then
    ["Create detailed timeline", "List required resources", "Identify key stakeholders",
     "Set milestones"]
  else if containsSubstr lowerTask "exercise" || containsSubstr lowerTask "workout" ||
      containsSubstr lowerTask "gym" then
    ["Pack gym clothes", "Plan workout routine", "Set hydration reminder", "Track progress"]
  else if containsSubstr lowerTask "doctor" || containsSubstr lowerTask "appointment" ||
      containsSubstr lowerTask "medical" then
    ["Gather insurance information", "Prepare questions to ask", "Bring previous records",
     "Set arrival reminder"]
  else if containsSubstr lowerTask "travel" || containsSubstr lowerTask "trip" ||
      containsSubstr lowerTask "flight" then
    ["Check travel documents", "Pack essential items", "Confirm reservations",
     "Set departure reminder"]
  else if containsSubstr lowerTask "study" || containsSubstr lowerTask "learn" ||
      containsSubstr lowerTask "course" then
    ["Gather study materials", "Find quiet study space", "Set learning goals",
     "Schedule practice time"]
  else if containsSubstr lowerTask "presentation" || containsSubstr lowerTask "present" ||
      containsSubstr lowerTask "demo" then
    ["Create slide outline", "Practice delivery", "Test all technology",
     "Prepare for questions"]
  else
    match category.bind (fun c => (categoryFallbacks.find? (fun kv => kv.1 = c)).map (·.2)) with
    | some l => l
    | none => ["Break into smaller steps", "Set completion deadline",
        "Gather needed resources", "Plan optimal timing"]

/-- `calculateConfidence` (ai-task-processor.js 1199-1207). -/
def calculateConfidence (input : String) (date time : Option String) (peopleCount : ℕ) : ℚ :=
  min (0.5 + (if date.isSome then (0.2 : ℚ) else 0) + (if time.isSome then (0.1 : ℚ) else 0) +
    (if peopleCount > 0 then (0.1 : ℚ) else 0) +
    (if input.length > 10 then (0.1 : ℚ) else 0)) 1.0

/-- The `^(plan|schedule|organize|prepare|do|complete)\s+` verb list. -/
def leadingVerbs : List String := ["plan", "schedule", "organize", "prepare", "do", "complete"]

/-- Is position `n` of the lower-cased string followed by whitespace? -/
def wsAfter (l : String) (n : ℕ) : Bool :=
  match l.data.drop n with
  | c :: _ => isWsChar c
  | [] => false

/-- `taskName.replace(/^(plan|schedule|organize|prepare|do|complete)\s+/i, "")`
(line 860): an alternative matches only if followed by at least one
whitespace character; the greedy `\s+` is removed with it. -/
def stripLeadingVerb (s : String) : String :=
  let l := lowerStr s
  match leadingVerbs.find? (fun v => strStartsWith l v && wsAfter l v.length) with
  | some v => String.mk ((s.data.drop v.length).dropWhile isWsChar)
  | none => s

/-- The date match of lines 822-830 (`match[0]` of the first date pattern
that matches the input). -/
def heurDateMatch (input : String) : Option String :=
  extractFirstMatch datePatterns input

/-- The task name after the date loop (removal of the matched text). -/
def heurTaskName1 (input : String) : String :=
  match heurDateMatch input with
  | some m => jsTrim (removeFirstOccur input m)
  | none => input

/-- The time match of lines 832-840. -/
def heurTimeMatch (input : String) : Option String :=
  extractFirstMatch timePatterns input

/-- The task name after the time loop. -/
def heurTaskName2 (input : String) : String :=
  match heurTimeMatch input with
  | some m => jsTrim (removeFirstOccur (heurTaskName1 input) m)
  | none => heurTaskName1 input

/-- The person loop applied to the running task name. -/
def heurPeopleRes (input : String) : List String × String :=
  heurPeople input (heurTaskName2 input)

/-- The final cleaned task name (lines 858-860): collapse whitespace, trim,
strip a leading verb. -/
def heurTaskName3 (input : String) : String :=
  stripLeadingVerb (jsTrim (collapseWs (heurPeopleRes input).2))

/-- `smartParseTask` (ai-task-processor.js 792-877): the heuristic parser.
Date and time matches are taken against the original `input` and removed
from the running task name; the person loop likewise; then the task name is
whitespace-collapsed, trimmed and stripped of a leading verb, falling back
to the raw input when it ends up empty. -/
def smartParseTask (input : String) : ServerData :=
  { success := true,
    parsed := some
      { taskName := some (jsOrStr (heurTaskName3 input) input),
        date := heurDateMatch input,
        time := heurTimeMatch input,
        priority := some (heurPriority input),
        people := some (heurPeopleRes input).1,
        category := some (inferCategory input),
        tags := some (generateSmartTags input),
        estimatedDuration := some (estimateDuration input),
        suggestions := some (generateTaskSuggestions (heurTaskName3 input)
          (some (inferCategory input))) },
    confidence := some (calculateConfidence input (heurDateMatch input)
      (heurTimeMatch input) (heurPeopleRes input).1.length) }

/-! ## Quick-match table (`getQuickParseResult`, ai-task-processor.js 997-1036) -/

/-- The partial defaults of one quick pattern. -/
structure QuickDefaults where
  category : Option String := none
  tags : Option (List String) := none
  priority : Option String := none
  estimatedDuration : Option String := none
deriving DecidableEq, Repr

/-- The ordered `quickPatterns` table (lines 1003-1011). -/
def quickPatterns : List (String × QuickDefaults) :=
  [("buy ", { category := some "shopping", tags := some ["shopping"],
              priority := some "medium" }),
   ("call ", { category := some "personal", tags := some ["communication"],
               priority := some "medium" }),
   ("email ", { category := some "work", tags := some ["communication", "work"],
                priority := some "medium" }),
   ("meeting ", { category := some "work", tags := some ["meeting", "work"],
                  priority := some "high", estimatedDuration := some "1 hour" }),
   ("urgent ", { priority := some "high", tags := some ["urgent"] }),
   ("doctor ", { category := some "health", tags := some ["health", "appointment"],
                 priority := some "high" }),
   ("gym ", { category := some "health", tags := some ["exercise", "health"],
              priority := some "medium", estimatedDuration := some "1 hour" })]

/-- The response built for a matched quick pattern (lines 1014-1031);
`input.slice(pattern.length).trim()` strips the prefix to form the task
name, and the defaults are merged over the generic ones. -/
def quickParsedOf (input : String) (pat : String) (d : QuickDefaults) : ServerData :=
  let taskName := jsTrim (dropChars input pat.length)
  { success := true,
    fastResponse := some true,
    parsed := some
      { taskName := some (jsOrStr taskName input),
        date := none,
        time := none,
        priority := some (jsOrOptStr d.priority "medium"),
        people := some [],
        category := some (jsOrOptStr d.category "general"),
        tags := some (d.tags.getD []),
        estimatedDuration := some (jsOrOptStr d.estimatedDuration "30 minutes"),
        suggestions := some (generateTaskSuggestions taskName d.category) },
    confidence := some 0.9 }

/-- The body of the quick-match loop (lines 1013-1033) applied to the
winning pattern, if any. -/
def quickFromFind (input : String) : Option (String × QuickDefaults) → Option ServerData
  | some pd => some (quickParsedOf input pd.1 pd.2)
  | none => none

/-- `getQuickParseResult` (ai-task-processor.js 997-1036): only for the
`smart-parse` feature; case-insensitive prefix match on the trimmed,
lower-cased input, patterns tried in table order. -/
def getQuickParseResult (input feature : String) : Option ServerData :=
  if feature ≠ "smart-parse" then none
  else
    quickFromFind input
      (quickPatterns.find? (fun pd => strStartsWith (jsTrim (lowerStr input)) pd.1))

/-- What `processWithAI` does after the quick-match check (lines 642-671,
specialized to `smart-parse`): with a key, call the model and fall back to
the mock `smartParseTask` if it throws; without one, the mock directly.
The boolean records whether the model endpoint was invoked. -/
def processAfterQuick (hasKey : Bool) (modelOutcome : Option ServerData)
    (userInput : String) : Option ServerData → ServerData × Bool
  | some quickResult => (quickResult, false)
  | none =>
    if hasKey then
      match modelOutcome with
      | some d => (d, true)
      | none => (smartParseTask userInput, true)
    else (smartParseTask userInput, false)

/-- `processWithAI` (ai-task-processor.js 633-672) specialized to the
`smart-parse` feature (whose mock-fallback branch is `smartParseTask`).
`hasKey` is whether `OPENAI_API_KEY` is configured; `modelOutcome` is the
result of `processWithOpenAI` (`none` = the model call threw and control
falls through to the mock fallback). -/
def processWithAISmartParse (hasKey : Bool) (modelOutcome : Option ServerData)
    (userInput : String) : ServerData × Bool :=
  processAfterQuick hasKey modelOutcome userInput
    (getQuickParseResult userInput "smart-parse")

/-! ## Server handler and response cache (ai-task-processor.js 579-631) -/

/-- `CACHE_DURATION = 5 * 60 * 1000` milliseconds. -/
def CACHE_DURATION : ℕ := 5 * 60 * 1000

/-- One entry of `responseCache`. -/
structure CacheEntry where
  response : ServerData
  timestamp : ℕ
deriving DecidableEq, Repr

/-- The `responseCache` map, as an association list; `cacheSet` prepends and
`cacheGet` takes the first binding, which matches wholesale overwriting. -/
abbrev Cache := List (String × CacheEntry)

/-- `responseCache.get`. -/
def cacheGet (c : Cache) (k : String) : Option CacheEntry :=
  (c.find? (fun kv => kv.1 = k)).map (·.2)

/-- `responseCache.set`. -/
def cacheSet (c : Cache) (k : String) (v : CacheEntry) : Cache :=
  (k, v) :: c

/-- The cache key of line 610:
the feature name (default smart-parse when falsy), an underscore, and the
lower-cased trimmed input. -/
def cacheKey (feature userInput : String) : String :=
  (if feature = "" then "smart-parse" else feature) ++ "_" ++ jsTrim (lowerStr userInput)

/-- What one handler invocation produced. -/
structure HandlerOut where
  status : ℕ
  response : Option ServerData
  processed : Bool
deriving DecidableEq, Repr

/-- The miss branch of the handler (lines 617-626): run `processWithAI` and
cache the response under the key with the current time. -/
def handlerProcess (process : String → String → ServerData) (cache : Cache) (now : ℕ)
    (userInput feature : String) : HandlerOut × Cache :=
  let r := process userInput feature
  ({ status := 200, response := some r, processed := true },
    cacheSet cache (cacheKey feature userInput) ⟨r, now⟩)

/-- The hit response of lines 612-615: the stored response with
`cached: true` spread onto it. -/
def handlerHit (entry : CacheEntry) : HandlerOut :=
  { status := 200, response := some { entry.response with cached := some true },
    processed := false }

/-- Lines 611-625 given the looked-up entry: a fresh-enough entry is
returned as a hit and `processWithAI` is not invoked at all; otherwise the
request is processed and the response stored (lazy expiry on read). -/
def handlerLookup (process : String → String → ServerData) (cache : Cache) (now : ℕ)
    (userInput feature : String) : Option CacheEntry → HandlerOut × Cache
  | some entry =>
    if now - entry.timestamp < CACHE_DURATION then (handlerHit entry, cache)
    else handlerProcess process cache now userInput feature
  | none => handlerProcess process cache now userInput feature

/-- The POST branch of the request handler (ai-task-processor.js 601-631),
parameterized over `processWithAI` (the cache logic is independent of it). -/
def handlerStep (process : String → String → ServerData) (cache : Cache) (now : ℕ)
    (userInput feature : String) : HandlerOut × Cache :=
  if userInput = "" then
    ({ status := 400, response := none, processed := false }, cache)
  else
    handlerLookup process cache now userInput feature
      (cacheGet cache (cacheKey feature userInput))

/-! ## AI client (src/lib/ai-client.js) -/

/-- `AI_ERROR_TYPES` (ai-client.js 14-21). -/
inductive AIErrorType where
  | NETWORK_ERROR
  | TIMEOUT_ERROR
  | API_ERROR
  | RATE_LIMIT_ERROR
  | VALIDATION_ERROR
  | UNKNOWN_ERROR
deriving DecidableEq, Repr

/-- An `AIClientError`: its `type` and optional HTTP `status`. -/
structure AIError where
  etype : AIErrorType
  status : Option ℕ := none
deriving DecidableEq, Repr

/-- A value thrown inside `makeRequest`: either an `AIClientError` or a
plain JS error (such as the `TypeError` a failed `fetch` rejects with),
which carries no `type` field. -/
inductive ThrownError where
  | aiError (e : AIError)
  | jsError
deriving DecidableEq, Repr

/-- `classifyError` (ai-client.js 45-88). An `AIClientError` is returned
unchanged; otherwise the optional response decides the classification. -/
def classifyError (err : ThrownError) (response : Option ℕ) : AIError :=
  match err with
  | .aiError e => e
  | .jsError =>
    match response with
    | none => { etype := .NETWORK_ERROR }
    | some status =>
      if status = 429 then { etype := .RATE_LIMIT_ERROR, status := some status }
      else if 400 ≤ status ∧ status < 500 then
        { etype := .VALIDATION_ERROR, status := some status }
      else if 500 ≤ status then { etype := .API_ERROR, status := some status }
      else { etype := .UNKNOWN_ERROR, status := some status }

/-- `shouldRetry` (ai-client.js 134-138); for a raw (non-`AIClientError`)
thrown value `error.type` is `undefined`, so it is never retried. -/
def shouldRetryThrown (t : ThrownError) : Bool :=
  match t with
  | .aiError e =>
    (decide (e.etype = .NETWORK_ERROR)) || (decide (e.etype = .TIMEOUT_ERROR)) ||
      ((decide (e.etype = .API_ERROR)) && decide (500 ≤ e.status.getD 0))
  | .jsError => false

/-- What one `fetch` attempt inside `makeRequest` can produce: an HTTP
response with a status, a rejection with no response, or a rejection after
the timeout abort fired. -/
inductive FetchOutcome where
  | response (status : ℕ)
  | networkFail
  | abortTimeout
deriving DecidableEq, Repr

/-- `makeRequest` (ai-client.js 90-132), with the fetch of attempt `n`
producing `outcome n`. A non-ok response throws an `AIClientError` typed
`RATE_LIMIT_ERROR` for 429 and `API_ERROR` otherwise (line 110); in the
catch block an abort becomes `TIMEOUT_ERROR` before any retry logic runs
(lines 120-122), retryable errors recurse with one fewer retry, and
everything else is thrown through `classifyError(error)` — called without
a response argument (line 130). -/
def makeRequestAux (outcome : ℕ → FetchOutcome) :
    ℕ → ℕ → Except AIError Unit
  | attempt, retries =>
    match outcome attempt with
    | .response s =>
      if 200 ≤ s ∧ s < 300 then .ok ()
      else
        let e : AIError :=
          { etype := if s = 429 then .RATE_LIMIT_ERROR else .API_ERROR, status := some s }
        match retries with
        | r + 1 =>
          if shouldRetryThrown (.aiError e) then makeRequestAux outcome (attempt + 1) r
          else .error (classifyError (.aiError e) none)
        | 0 => .error (classifyError (.aiError e) none)
    | .networkFail =>
      match retries with
      | r + 1 =>
        if shouldRetryThrown .jsError then makeRequestAux outcome (attempt + 1) r
        else .error (classifyError .jsError none)
      | 0 => .error (classifyError .jsError none)
    | .abortTimeout => .error { etype := .TIMEOUT_ERROR }

/-- `makeRequest` with its default `MAX_RETRIES = 2`. -/
def makeRequest (outcome : ℕ → FetchOutcome) : Except AIError Unit :=
  makeRequestAux outcome 0 2

/-- The normalization `taskProcessor.smartParse` applies to a successful
response body (ai-client.js 169-182): `||` defaults on each field. -/
def normalizeSmartParse (userInput : String) (data : ServerData) : ClientParsedTask :=
  { taskName := jsOrOptStr (data.parsed.bind (·.taskName)) userInput,
    date := data.parsed.bind (·.date),
    time := data.parsed.bind (·.time),
    priority := jsOrOptStr (data.parsed.bind (·.priority)) "medium",
    people := (data.parsed.bind (·.people)).getD [],
    category := jsOrOptStr (data.parsed.bind (·.category)) "general",
    tags := (data.parsed.bind (·.tags)).getD [],
    estimatedDuration := jsOrOptStr (data.parsed.bind (·.estimatedDuration)) "30 minutes",
    suggestions := (data.parsed.bind (·.suggestions)).getD [],
    confidence := jsOrOptQ data.confidence 0.5,
    aiPowered := data.aiPowered.getD false,
    cached := data.cached.getD false }

/-- A JS argument passed to `taskProcessor.smartParse`: a string, or any
non-string value (number, null, undefined, object, ...). -/
inductive JSInput where
  | str (s : String)
  | nonString
deriving DecidableEq, Repr

/-- `taskProcessor.smartParse` (ai-client.js 148-183), with the request
round-trip abstracted by `server` (what `makeRequest` + `response.json()`
produce for the trimmed input). The boolean of the result records whether
a network request was issued at all: the guard at lines 149-151 throws a
`VALIDATION_ERROR` before `makeRequest` is reached. -/
def smartParseEntry (userInput : JSInput)
    (server : String → Except AIError ServerData) :
    Bool × Except AIError ClientParsedTask :=
  match userInput with
  | .nonString => (false, .error { etype := .VALIDATION_ERROR })
  | .str s =>
    if s = "" then (false, .error { etype := .VALIDATION_ERROR })
    else
      match server (jsTrim s) with
      | .error e => (true, .error e)
      | .ok data =>
        if data.success = false then (true, .error { etype := .API_ERROR })
        else (true, .ok (normalizeSmartParse s data))

/-! ## Smart task input component (src/components/SmartTaskInput.js)

State updates driven by React events become a small transition system; a
function that awaits persistence calls becomes a function from the outcomes
of those calls to the ordered trace of requests it issues. -/

/-- The task objects handed to `onAddTask`, with the metadata fields the
component sets. A JS object simply lacking a key is `none`/`false` here;
the persistence collaborator reads absent `aiEnhanced` as `false`
(supabase-native `createTask`: `taskData.aiEnhanced || false`). -/
structure TaskData where
  task : String
  projectId : String
  date : String
  priority : String
  aiEnhanced : Bool := false
  parentTaskId : Option String := none
  metaOriginalInput : Option String := none
  metaAiParsed : Option ClientParsedTask := none
  metaParentTask : Option String := none
  metaType : Option String := none
  metaAiGenerated : Bool := false
  metaEstimatedTime : Option String := none
deriving DecidableEq, Repr

/-- A request to the persistence collaborator. The component only ever
issues `createTask`; `updateTask`/`deleteTask` are the other primitives of
the interface of the collaborator and are used to express that the component
never rolls anything back. -/
inductive PersistOp where
  | createTask (d : TaskData)
  | updateTask (id : String) (d : TaskData)
  | deleteTask (id : String)
deriving DecidableEq, Repr

/-- The outcome of the awaited primary `onAddTask` call: it threw, or it
resolved to a value whose `id` field may be absent. -/
inductive AddOutcome where
  | threw
  | returned (id : Option String)
deriving DecidableEq, Repr

/-- UI state of the component (the pieces the claims are about).
`surfacedError` exists to make "no error is surfaced" expressible: the
component has no error state at all, and no transition below ever sets
this field — the catch block at lines 113-122 only writes to the console. -/
structure UIState where
  input : String := ""
  parsedTask : Option ClientParsedTask := none
  hasAiSuggestions : Bool := false
  isProcessing : Bool := false
  surfacedError : Option String := none
deriving DecidableEq, Repr

/-- Events of one typing session. The sequence numbers on the request
events are ghost labels used only to state properties: the source carries
no sequence number, and the handlers below accordingly ignore them. -/
inductive UIEvent where
  | inputChange (value : String)
  | parseStarted (seq : ℕ)
  | parseResolved (seq : ℕ) (result : ClientParsedTask)
  | parseFailed (seq : ℕ) (e : AIError)
deriving DecidableEq, Repr

/-- The state transition of each event:
`inputChange` is `handleInputChange` (lines 144-160: store the value and
clear any AI data); `parseStarted` is the entry of `processWithAI`
(line 71); `parseResolved` is its smart-parse success continuation
(line 87 plus the `finally`); `parseFailed` is its catch plus `finally`
(lines 113-125), which changes nothing but `isProcessing`. -/
def applyUIEvent (s : UIState) (e : UIEvent) : UIState :=
  match e with
  | .inputChange v => { s with input := v, parsedTask := none, hasAiSuggestions := false }
  | .parseStarted _ => { s with isProcessing := true }
  | .parseResolved _ r => { s with parsedTask := some r, isProcessing := false }
  | .parseFailed _ _ => { s with isProcessing := false }

/-- Run a list of events. -/
def runUI (s : UIState) (es : List UIEvent) : UIState :=
  es.foldl applyUIEvent s

/-- The net state change of one smart-parse `processWithAI` call
(lines 68-126) given the outcome of the awaited `taskProcessor.smartParse`:
early return on blank text; on success the result is stored; on error
nothing is stored or surfaced (the catch only logs). -/
def processWithAIStep (s : UIState) (text : String)
    (outcome : Except AIError ClientParsedTask) : UIState :=
  if jsTrim text = "" then s
  else
    match outcome with
    | .ok r => { s with parsedTask := some r, isProcessing := false }
    | .error _ => { s with isProcessing := false }

/-- The text input element (lines 540-548) carries no `disabled` attribute:
typing is never blocked. -/
def inputDisabled (_ : UIState) : Bool := false

/-- The `disabled` prop of the submit button (line 565). -/
def submitDisabled (s : UIState) : Bool :=
  jsTrim s.input = "" || s.isProcessing

/-- `handleSubmit` (lines 170-205): the task data passed to `onAddTask`,
or `none` when the input is blank. Without a parsed task the draft is the
raw input with no AI fields; with one, the parsed fields are used and
`aiEnhanced` is set. -/
def handleSubmit (input : String) (projectId : Option String)
    (parsedTask : Option ClientParsedTask) : Option TaskData :=
  if jsTrim input = "" then none
  else some (match parsedTask with
    | none =>
      { task := input, projectId := jsOrOptStr projectId "1", date := "",
        priority := "medium" }
    | some p =>
      { task := jsOrStr p.taskName input, projectId := jsOrOptStr projectId "1",
        date := jsOrOptStr p.date "", priority := jsOrStr p.priority "medium",
        aiEnhanced := true, metaOriginalInput := some input, metaAiParsed := some p })

/-- A suggestion as stored in component state: a plain string (from
`parsedTask.suggestions` / `aiSuggestions.suggestions`) or a breakdown
item `{task, priority, estimatedTime}`. -/
inductive Suggestion where
  | str (s : String)
  | item (task : String) (priority : String) (estimatedTime : Option String)
deriving DecidableEq, Repr

/-- The expression `typeof suggestion` equals string ? suggestion : `suggestion.task || suggestion`
(lines 276-277; the degenerate `|| suggestion` object fallback for an empty
`task` string is not representable and not exercised). -/
def suggestionText : Suggestion → String
  | .str s => s
  | .item t _ _ => t

/-- `suggestion.priority || "low"` (line 278); a string suggestion has no
`priority` field. -/
def suggestionPriority : Suggestion → String
  | .str _ => "low"
  | .item _ p _ => jsOrStr p "low"

/-- `suggestion.estimatedTime` (line 291). -/
def suggestionTime : Suggestion → Option String
  | .str _ => none
  | .item _ _ t => t

/-- The `aiSuggestions` state object, as far as the composer reads it. -/
structure AiSuggestionsState where
  suggestions : Option (List String) := none
  breakdown : Option (List Suggestion) := none
deriving DecidableEq, Repr

/-- Lines 265-267:
`parsedTask?.suggestions || aiSuggestions?.suggestions || aiSuggestions?.breakdown || []`
(an array is truthy in JS even when empty, so a present `parsedTask` always
supplies the list). -/
def selectSuggestionSource (parsedTask : Option ClientParsedTask)
    (ai : Option AiSuggestionsState) : List Suggestion :=
  match parsedTask with
  | some p => p.suggestions.map .str
  | none =>
    match ai with
    | some a =>
      match a.suggestions with
      | some l => l.map .str
      | none => (a.breakdown.getD [])
    | none => []

/-- The main-task draft of `handleAddSelectedSuggestions` and
`handleSuggestionClick` (lines 236-257 and 330-349). -/
def buildMainTaskData (input : String) (projectId : Option String)
    (parsedTask : Option ClientParsedTask) : TaskData :=
  match parsedTask with
  | none =>
    { task := jsTrim input, projectId := jsOrOptStr projectId "1", date := "",
      priority := "medium" }
  | some p =>
    { task := jsOrStr p.taskName (jsTrim input), projectId := jsOrOptStr projectId "1",
      date := jsOrOptStr p.date "", priority := jsOrStr p.priority "medium",
      aiEnhanced := true, metaOriginalInput := some input, metaAiParsed := some p }

/-- The subtask drafts built from the selected suggestion identifiers
(lines 270-297): each identifier `"<index>-<text>"` is split at its first
dash and the index parsed; a missing suggestion yields `null` and is
filtered out; every draft carries the resolved primary id as
`parentTaskId` and subtask metadata. -/
def builtSubtasks (projectId : Option String) (mainTask : String) (mainId : String)
    (suggestions : List Suggestion) (selected : List String) : List TaskData :=
  selected.filterMap (fun sid =>
    match (jsParseIntOpt (takeBeforeDash sid)).bind suggestions.get? with
    | none => none
    | some s =>
      some { task := suggestionText s, projectId := jsOrOptStr projectId "1", date := "",
             priority := suggestionPriority s, aiEnhanced := true,
             parentTaskId := some mainId, metaParentTask := some mainTask,
             metaType := some "subtask", metaAiGenerated := true,
             metaEstimatedTime := suggestionTime s })

/-- `handleAddSelectedSuggestions` (lines 233-325) as the ordered trace of
persistence requests it issues, given the outcome of the awaited primary
`onAddTask`. The primary create is awaited first; only when it resolves
with an id are the subtask creates issued (otherwise the function logs and
issues nothing further); the form reset afterwards issues no requests. -/
def handleAddSelectedSuggestions (input : String) (projectId : Option String)
    (parsedTask : Option ClientParsedTask) (ai : Option AiSuggestionsState)
    (selected : List String) (primary : AddOutcome) : List PersistOp :=
  if jsTrim input = "" ∨ selected = [] then []
  else
    let mainTaskData := buildMainTaskData input projectId parsedTask
    PersistOp.createTask mainTaskData ::
      (match primary with
       | .returned (some id) =>
         (builtSubtasks projectId mainTaskData.task id
           (selectSuggestionSource parsedTask ai) selected).map PersistOp.createTask
       | _ => [])

/-- Lines 299-310: the subtask batch dispatch. Every draft is issued as its
own awaited call in a `try`/`catch` that logs and continues, and the batch
is awaited with `Promise.allSettled`: issuance does not depend on which
calls fail. Returns (issued calls in order, drafts whose call failed and
was logged). -/
def dispatchSubtaskBatch (subtasks : List TaskData) (fails : TaskData → Bool) :
    List TaskData × List TaskData :=
  (subtasks, subtasks.filter fails)

/-- `handleSuggestionClick` (lines 327-383): the single-suggestion path. -/
def handleSuggestionClick (input : String) (projectId : Option String)
    (parsedTask : Option ClientParsedTask) (suggestion : String)
    (primary : AddOutcome) : List PersistOp :=
  if jsTrim input = "" then []
  else
    let mainTaskData := buildMainTaskData input projectId parsedTask
    PersistOp.createTask mainTaskData ::
      (match primary with
       | .returned (some id) =>
         [PersistOp.createTask
           { task := suggestion, projectId := jsOrOptStr projectId "1", date := "",
             priority := "low", aiEnhanced := true, parentTaskId := some id,
             metaParentTask := some mainTaskData.task, metaType := some "subtask",
             metaAiGenerated := true }]
       | _ => [])

/-! ## Concrete fixtures used by counterexamples and witnesses -/

/-- A parse result carried by an earlier, stale request. -/
def uiRespA : ClientParsedTask := { taskName := "alpha" }

/-- A parse result carried by the most recently issued request. -/
def uiRespB : ClientParsedTask := { taskName := "beta" }

/-- The race of claim C1: request 1 is issued, request 2 is issued, the
response of request 2 arrives and is applied, then the stale response of
request 1 arrives. -/
def c1EventTrace : List UIEvent :=
  [.parseStarted 1, .parseStarted 2, .parseResolved 2 uiRespB, .parseResolved 1 uiRespA]

/-- A reachable model-backed response body: `processWithOpenAI` returns
`{success: true, aiPowered: true, ...parsed}` where `parsed` is whatever
JSON the model produced, so a model output of
`{"parsed": {"priority": "urgent"}, "confidence": 2}` reaches the client
verbatim. -/
def modelRespHostile : ServerData :=
  { success := true, parsed := some { priority := some "urgent" }, confidence := some 2 }

/-! ## Helper lemmas -/

/-- Every draft built for the subtask batch carries the resolved primary id
and subtask metadata. -/
theorem builtSubtasks_fields (projectId : Option String) (mainTask mainId : String)
    (suggestions : List Suggestion) (selected : List String) :
    ∀ d ∈ builtSubtasks projectId mainTask mainId suggestions selected,
      d.parentTaskId = some mainId ∧ d.metaType = some "subtask" := by
  intro d hd
  rw [builtSubtasks, List.mem_filterMap] at hd
  obtain ⟨sid, _, hf⟩ := hd
  rcases h : (jsParseIntOpt (takeBeforeDash sid)).bind suggestions.get? with _ | s <;>
    rw [h] at hf
  · exact absurd hf (by simp)
  · cases hf
    exact ⟨rfl, rfl⟩

/-- `calculateConfidence` always lands in `[0, 1]`. -/
theorem calculateConfidence_bounds (input : String) (d t : Option String) (n : ℕ) :
    0 ≤ calculateConfidence input d t n ∧ calculateConfidence input d t n ≤ 1 := by
  unfold calculateConfidence
  constructor
  · apply le_min
    · split_ifs <;> norm_num
    · norm_num
  · exact (min_le_right _ _).trans (by norm_num)

/-- `heurPriority` only produces the three enum values. -/
theorem heurPriority_mem (input : String) :
    heurPriority input = "high" ∨ heurPriority input = "low" ∨
      heurPriority input = "medium" := by
  unfold heurPriority
  split_ifs <;> simp

/-- A handler invocation on a cache whose lookup yields `entry` is a hit
when the entry is fresh and reprocesses otherwise. -/
theorem handlerStep_lookup (process : String → String → ServerData) (c : Cache)
    (now : ℕ) (u f : String) (entry : CacheEntry)
    (hu : u ≠ "") (hget : cacheGet c (cacheKey f u) = some entry) :
    handlerStep process c now u f
      = if now - entry.timestamp < CACHE_DURATION then (handlerHit entry, c)
        else handlerProcess process c now u f := by
  unfold handlerStep
  rw [if_neg hu, hget]
  simp only [handlerLookup]

/-- A handler invocation that reports `processed = true` ran the pipeline
and stored its response under the key at the current time. -/
theorem handlerStep_processed_snd (process : String → String → ServerData) (cache : Cache)
    (now : ℕ) (userInput feature : String)
    (h : (handlerStep process cache now userInput feature).1.processed = true) :
    (handlerStep process cache now userInput feature).2
      = cacheSet cache (cacheKey feature userInput)
          ⟨process userInput feature, now⟩ := by
  unfold handlerStep at h ⊢
  by_cases h1 : userInput = ""
  · rw [if_pos h1] at h
    simp at h
  · rw [if_neg h1] at h ⊢
    rcases hg : cacheGet cache (cacheKey feature userInput) with _ | entry
    · rfl
    · rw [hg] at h
      simp only [handlerLookup] at h ⊢
      by_cases h2 : now - entry.timestamp < CACHE_DURATION
      · rw [if_pos h2] at h
        simp [handlerHit] at h
      · rw [if_neg h2]
        rfl

/-! ## Claims -/

/-- Claim C1, counterexample. The claim asserts that within a typing
session a stale response never overwrites UI state set by a more recently
issued request. The component has no sequence numbers and no stale-response
guard: after the result `uiRespB` of request 2 is applied, the late response of
request 1 is applied too, so the final `parsedTask` is `uiRespA`, not
`uiRespB`. -/
theorem C1_stale_response_overwrites :
    (runUI {} c1EventTrace).parsedTask = some uiRespA ∧
      (runUI {} c1EventTrace).parsedTask ≠ some uiRespB := by
  constructor
  · rfl
  · intro h
    have h' : some uiRespA = some uiRespB := h
    have hs : ("alpha" : String) = "beta" :=
      congrArg ClientParsedTask.taskName (Option.some.inj h')
    exact absurd hs (by decide)

/-- Claim C1, amended: the `parsedTask` UI state reflects whichever parse
response resolves last, regardless of issue order — a stale response is
applied rather than discarded (last writer wins). -/
theorem C1_last_resolved_wins (s : UIState) (es : List UIEvent) (seq : ℕ)
    (r : ClientParsedTask) :
    (runUI s (es ++ [UIEvent.parseResolved seq r])).parsedTask = some r := by
  rw [runUI, List.foldl_append]
  rfl

/-- Claim C2: on submission of a composed primary draft with selected
suggestions, the primary persistence call heads the request trace and
carries no parent id; subtask calls appear only after the primary call
resolved with an id, and every one of them carries that id as
`parentTaskId` with subtask metadata; a thrown primary call, or one
resolving without an id, yields zero subtask calls. The same holds for the
single-suggestion click path. -/
theorem C2_primary_before_subtasks (input : String) (projectId : Option String)
    (parsedTask : Option ClientParsedTask) (ai : Option AiSuggestionsState)
    (selected : List String) (primary : AddOutcome) (sug : String) :
    (∀ op rest,
        handleAddSelectedSuggestions input projectId parsedTask ai selected primary
          = op :: rest →
        op = .createTask (buildMainTaskData input projectId parsedTask) ∧
          (buildMainTaskData input projectId parsedTask).parentTaskId = none) ∧
    (∀ id, primary = .returned (some id) →
      ∀ op ∈ (handleAddSelectedSuggestions input projectId parsedTask ai selected
          primary).tail,
        ∃ d, op = .createTask d ∧ d.parentTaskId = some id ∧
          d.metaType = some "subtask") ∧
    (primary = .threw →
      (handleAddSelectedSuggestions input projectId parsedTask ai selected primary).tail
        = []) ∧
    (primary = .returned none →
      (handleAddSelectedSuggestions input projectId parsedTask ai selected primary).tail
        = []) ∧
    (∀ id, primary = .returned (some id) →
      ∀ op ∈ (handleSuggestionClick input projectId parsedTask sug primary).tail,
        ∃ d, op = .createTask d ∧ d.parentTaskId = some id ∧
          d.metaType = some "subtask") ∧
    ((primary = .threw ∨ primary = .returned none) →
      (handleSuggestionClick input projectId parsedTask sug primary).tail = []) := by
  have hmain : (buildMainTaskData input projectId parsedTask).parentTaskId = none := by
    cases parsedTask <;> rfl
  refine ⟨?_, ?_, ?_, ?_, ?_, ?_⟩
  · intro op rest heq
    unfold handleAddSelectedSuggestions at heq
    by_cases hc : jsTrim input = "" ∨ selected = []
    · rw [if_pos hc] at heq
      exact absurd heq (by simp)
    · rw [if_neg hc] at heq
      injection heq with h1 _
      exact ⟨h1.symm, hmain⟩
  · intro id hp op hmem
    subst hp
    unfold handleAddSelectedSuggestions at hmem
    by_cases hc : jsTrim input = "" ∨ selected = []
    · rw [if_pos hc] at hmem
      simp at hmem
    · rw [if_neg hc] at hmem
      simp only [List.tail_cons] at hmem
      obtain ⟨d, hd, rfl⟩ := List.mem_map.mp hmem
      obtain ⟨hpar, hty⟩ := builtSubtasks_fields _ _ _ _ _ d hd
      exact ⟨d, rfl, hpar, hty⟩
  · intro hp
    subst hp
    unfold handleAddSelectedSuggestions
    by_cases hc : jsTrim input = "" ∨ selected = []
    · rw [if_pos hc]; rfl
    · rw [if_neg hc]; rfl
  · intro hp
    subst hp
    unfold handleAddSelectedSuggestions
    by_cases hc : jsTrim input = "" ∨ selected = []
    · rw [if_pos hc]; rfl
    · rw [if_neg hc]; rfl
  · intro id hp op hmem
    subst hp
    unfold handleSuggestionClick at hmem
    by_cases hc : jsTrim input = ""
    · rw [if_pos hc] at hmem
      simp at hmem
    · rw [if_neg hc] at hmem
      simp only [List.tail_cons, List.mem_singleton] at hmem
      subst hmem
      exact ⟨_, rfl, rfl, rfl⟩
  · intro hp
    unfold handleSuggestionClick
    by_cases hc : jsTrim input = ""
    · rw [if_pos hc]; rfl
    · rw [if_neg hc]
      rcases hp with hp | hp <;> subst hp <;> rfl

/-- Witness for C2 at concrete inputs: a primary call that resolved without
an id produces no subtask calls on either path. -/
theorem C2_primary_before_subtasks_witness :
    (handleAddSelectedSuggestions "plan offsite" none none none ["0-a"]
        (.returned none)).tail = [] ∧
      (handleSuggestionClick "plan offsite" none none "Book room"
        (.returned none)).tail = [] :=
  ⟨(C2_primary_before_subtasks "plan offsite" none none none ["0-a"] (.returned none)
      "Book room").2.2.2.1 rfl,
   (C2_primary_before_subtasks "plan offsite" none none none ["0-a"] (.returned none)
      "Book room").2.2.2.2.2 (Or.inr rfl)⟩

/-- Claim C3: a `TIMEOUT_ERROR` from the background smart-parse call is
swallowed: no error is surfaced, no parse preview is stored, processing
ends, the input stays editable, and a subsequent submit creates a plain
task from the raw input whose `aiEnhanced` is false. -/
theorem C3_timeout_silently_degrades (s : UIState) (input : String)
    (projectId : Option String) (e : AIError)
    (hin : jsTrim input ≠ "") (hpt : s.parsedTask = none)
    (herr : s.surfacedError = none) (_het : e.etype = .TIMEOUT_ERROR) :
    (processWithAIStep s input (.error e)).surfacedError = none ∧
    (processWithAIStep s input (.error e)).parsedTask = none ∧
    (processWithAIStep s input (.error e)).isProcessing = false ∧
    inputDisabled (processWithAIStep s input (.error e)) = false ∧
    handleSubmit input projectId (processWithAIStep s input (.error e)).parsedTask
      = some { task := input, projectId := jsOrOptStr projectId "1", date := "",
               priority := "medium" } ∧
    ({ task := input, projectId := jsOrOptStr projectId "1", date := "",
       priority := "medium" } : TaskData).aiEnhanced = false := by
  have hstep : processWithAIStep s input (.error e) = { s with isProcessing := false } := by
    unfold processWithAIStep
    rw [if_neg hin]
  rw [hstep]
  refine ⟨herr, hpt, rfl, rfl, ?_, rfl⟩
  show handleSubmit input projectId s.parsedTask = _
  rw [hpt]
  unfold handleSubmit
  rw [if_neg hin]

/-- Witness for C3 at a concrete session: a timed-out background parse
leaves no preview and the submit yields the plain draft. -/
theorem C3_timeout_silently_degrades_witness :
    (processWithAIStep {} "finish the report"
        (.error { etype := .TIMEOUT_ERROR })).parsedTask = none ∧
      handleSubmit "finish the report" none
          (processWithAIStep {} "finish the report"
            (.error { etype := .TIMEOUT_ERROR })).parsedTask
        = some { task := "finish the report", projectId := "1", date := "",
                 priority := "medium" } :=
  ⟨(C3_timeout_silently_degrades {} "finish the report" none { etype := .TIMEOUT_ERROR }
      (by decide) rfl rfl rfl).2.1,
   (C3_timeout_silently_degrades {} "finish the report" none { etype := .TIMEOUT_ERROR }
      (by decide) rfl rfl rfl).2.2.2.2.1⟩

/-- Claim C10: the public smart-parse entry point rejects the empty string
and any non-string argument with a `VALIDATION_ERROR` before any network
request is issued (the first component of the result records whether a
request went out). -/
theorem C10_guard_rejects_empty_and_nonstring
    (server : String → Except AIError ServerData) :
    smartParseEntry (.str "") server
        = (false, .error { etype := .VALIDATION_ERROR }) ∧
      smartParseEntry .nonString server
        = (false, .error { etype := .VALIDATION_ERROR }) :=
  ⟨rfl, rfl⟩

/-- Every request the composer issues is a `createTask`. -/
theorem handleAdd_ops_are_creates (input : String) (projectId : Option String)
    (parsedTask : Option ClientParsedTask) (ai : Option AiSuggestionsState)
    (selected : List String) (primary : AddOutcome) :
    ∀ op ∈ handleAddSelectedSuggestions input projectId parsedTask ai selected primary,
      ∃ d, op = PersistOp.createTask d := by
  intro op hmem
  unfold handleAddSelectedSuggestions at hmem
  by_cases hc : jsTrim input = "" ∨ selected = []
  · rw [if_pos hc] at hmem
    simp at hmem
  · rw [if_neg hc] at hmem
    rcases List.mem_cons.mp hmem with rfl | hmem
    · exact ⟨_, rfl⟩
    · cases primary with
      | threw => simp at hmem
      | returned oid =>
        cases oid with
        | none => simp at hmem
        | some i =>
          obtain ⟨d, _, rfl⟩ := List.mem_map.mp hmem
          exact ⟨d, rfl⟩

/-- Claim C9: the subtask batch after a successful primary creation is
failure-isolated: every sibling draft is issued whatever subset of calls
fails, the failed ones are logged, the issued subtask calls are exactly the
built batch independently of which fail, and the trace never contains an
update or delete — the persisted primary task is not rolled back. -/
theorem C9_subtask_failure_isolation (subtasks : List TaskData) (fails : TaskData → Bool)
    (input : String) (projectId : Option String) (parsedTask : Option ClientParsedTask)
    (ai : Option AiSuggestionsState) (selected : List String) (primary : AddOutcome)
    (id : String) :
    (dispatchSubtaskBatch subtasks fails).1 = subtasks ∧
    (dispatchSubtaskBatch subtasks fails).2 = subtasks.filter fails ∧
    (∀ op ∈ handleAddSelectedSuggestions input projectId parsedTask ai selected primary,
      (∀ i d, op ≠ .updateTask i d) ∧ ∀ i, op ≠ .deleteTask i) ∧
    (primary = .returned (some id) → jsTrim input ≠ "" → selected ≠ [] →
      (handleAddSelectedSuggestions input projectId parsedTask ai selected primary).tail
        = ((dispatchSubtaskBatch
            (builtSubtasks projectId (buildMainTaskData input projectId parsedTask).task id
              (selectSuggestionSource parsedTask ai) selected) fails).1).map
            PersistOp.createTask) := by
  refine ⟨rfl, rfl, ?_, ?_⟩
  · intro op hmem
    obtain ⟨d, rfl⟩ :=
      handleAdd_ops_are_creates input projectId parsedTask ai selected primary op hmem
    exact ⟨fun i d h => PersistOp.noConfusion h, fun i h => PersistOp.noConfusion h⟩
  · intro hp h1 h2
    subst hp
    unfold handleAddSelectedSuggestions
    rw [if_neg (not_or.mpr ⟨h1, h2⟩)]
    rfl

/-- Witness for C9 at a concrete composition: the issued subtask calls do
not depend on which subtask calls fail. -/
theorem C9_subtask_failure_isolation_witness :
    (handleAddSelectedSuggestions "plan offsite" none none none ["0-a"]
        (.returned (some "t1"))).tail
      = ((dispatchSubtaskBatch
          (builtSubtasks none (buildMainTaskData "plan offsite" none none).task "t1"
            (selectSuggestionSource none none) ["0-a"]) (fun _ => true)).1).map
          PersistOp.createTask :=
  (C9_subtask_failure_isolation [] (fun _ => true) "plan offsite" none none none ["0-a"]
    (.returned (some "t1")) "t1").2.2.2 rfl (by decide) (by decide)

/-- Claim C4, counterexample. A reachable model-backed response carrying
`confidence = 2` and `parsed.priority = "urgent"` passes through the client
normalization unvalidated, violating both invariants the claim asserts for
arbitrary model response fields. -/
theorem C4_model_values_pass_through :
    (normalizeSmartParse "write report" modelRespHostile).confidence = 2 ∧
    ¬ (normalizeSmartParse "write report" modelRespHostile).confidence ≤ 1 ∧
    (normalizeSmartParse "write report" modelRespHostile).priority = "urgent" ∧
    (normalizeSmartParse "write report" modelRespHostile).priority ≠ "low" ∧
    (normalizeSmartParse "write report" modelRespHostile).priority ≠ "medium" ∧
    (normalizeSmartParse "write report" modelRespHostile).priority ≠ "high" := by
  have hc : (normalizeSmartParse "write report" modelRespHostile).confidence = 2 := by
    show jsOrOptQ (some 2) 0.5 = 2
    norm_num [jsOrOptQ]
  have hp : (normalizeSmartParse "write report" modelRespHostile).priority = "urgent" := rfl
  refine ⟨hc, ?_, hp, ?_, ?_, ?_⟩
  · rw [hc]; norm_num
  · rw [hp]; decide
  · rw [hp]; decide
  · rw [hp]; decide

/-- Claim C4, amended: the invariants (`confidence ∈ [0,1]`,
`priority ∈ {low, medium, high}`) hold on the heuristic path and on the
quick-match path, and on the model-backed path they hold for fields the
model omits (priority defaults to medium, confidence to 0.5) — but values
the model does supply are passed through without validation
(see the counterexample). -/
theorem C4_invariants_on_code_paths (input userInput feature u2 : String)
    (q data : ServerData) :
    (0 ≤ (normalizeSmartParse input (smartParseTask input)).confidence ∧
      (normalizeSmartParse input (smartParseTask input)).confidence ≤ 1 ∧
      ((normalizeSmartParse input (smartParseTask input)).priority = "low" ∨
        (normalizeSmartParse input (smartParseTask input)).priority = "medium" ∨
        (normalizeSmartParse input (smartParseTask input)).priority = "high")) ∧
    (getQuickParseResult userInput feature = some q →
      (normalizeSmartParse u2 q).confidence = 0.9 ∧
      ((normalizeSmartParse u2 q).priority = "medium" ∨
        (normalizeSmartParse u2 q).priority = "high")) ∧
    (data.parsed = none → (normalizeSmartParse u2 data).priority = "medium") ∧
    (data.confidence = none → (normalizeSmartParse u2 data).confidence = 0.5) := by
  refine ⟨⟨?_, ?_, ?_⟩, ?_, ?_, ?_⟩
  · have hcc : (normalizeSmartParse input (smartParseTask input)).confidence
        = jsOrOptQ (some (calculateConfidence input (heurDateMatch input)
            (heurTimeMatch input) (heurPeopleRes input).1.length)) 0.5 := rfl
    rw [hcc]
    simp only [jsOrOptQ]
    split_ifs
    · norm_num
    · exact (calculateConfidence_bounds _ _ _ _).1
  · have hcc : (normalizeSmartParse input (smartParseTask input)).confidence
        = jsOrOptQ (some (calculateConfidence input (heurDateMatch input)
            (heurTimeMatch input) (heurPeopleRes input).1.length)) 0.5 := rfl
    rw [hcc]
    simp only [jsOrOptQ]
    split_ifs
    · norm_num
    · exact (calculateConfidence_bounds _ _ _ _).2
  · have hpr : (normalizeSmartParse input (smartParseTask input)).priority
        = jsOrOptStr (some (heurPriority input)) "medium" := rfl
    rcases heurPriority_mem input with h | h | h <;> simp [hpr, h, jsOrOptStr]
  · intro hq
    unfold getQuickParseResult at hq
    by_cases hf : feature ≠ "smart-parse"
    · rw [if_pos hf] at hq
      exact absurd hq (by simp)
    · rw [if_neg hf] at hq
      rcases hfind : quickPatterns.find?
          (fun pd => strStartsWith (jsTrim (lowerStr userInput)) pd.1) with _ | pd
      · rw [hfind] at hq
        exact absurd hq (by simp [quickFromFind])
      · rw [hfind] at hq
        simp only [quickFromFind, Option.some.injEq] at hq
        subst hq
        have hmem := List.mem_of_find?_eq_some hfind
        constructor
        · show jsOrOptQ (some 0.9) 0.5 = 0.9
          norm_num [jsOrOptQ]
        · have hall : ∀ x ∈ quickPatterns,
              jsOrOptStr x.2.priority "medium" = "medium" ∨
                jsOrOptStr x.2.priority "medium" = "high" := by decide
          have hpr : (normalizeSmartParse u2 (quickParsedOf userInput pd.1 pd.2)).priority
              = jsOrOptStr (some (jsOrOptStr pd.2.priority "medium")) "medium" := rfl
          rcases hall pd hmem with h | h <;> rw [hpr, h] <;> simp [jsOrOptStr]
  · intro h
    have hpr : (normalizeSmartParse u2 data).priority
        = jsOrOptStr (data.parsed.bind (·.priority)) "medium" := rfl
    rw [hpr, h]
    rfl
  · intro h
    have hcc : (normalizeSmartParse u2 data).confidence
        = jsOrOptQ data.confidence 0.5 := rfl
    rw [hcc, h]
    rfl

/-- Witness for C4 at concrete inputs: a heuristic parse satisfies the
lower confidence bound, and the `"buy milk"` quick-match response
normalizes to confidence 0.9. -/
theorem C4_invariants_on_code_paths_witness :
    0 ≤ (normalizeSmartParse "hello" (smartParseTask "hello")).confidence ∧
      (normalizeSmartParse "buy milk" (quickParsedOf "buy milk" "buy "
          { category := some "shopping", tags := some ["shopping"],
            priority := some "medium" })).confidence = 0.9 :=
  ⟨(C4_invariants_on_code_paths "hello" "buy milk" "smart-parse" "buy milk"
      (quickParsedOf "buy milk" "buy "
        { category := some "shopping", tags := some ["shopping"],
          priority := some "medium" }) {}).1.1,
   ((C4_invariants_on_code_paths "hello" "buy milk" "smart-parse" "buy milk"
      (quickParsedOf "buy milk" "buy "
        { category := some "shopping", tags := some ["shopping"],
          priority := some "medium" }) {}).2.1 rfl).1⟩

/-- Claim C5, counterexample. On `"Call Sarah tomorrow at 3pm"` the
heuristic parser extracts no time (`"3pm"` does not match the `H:MM`
pattern), no people (neither person pattern applies), and categorizes as
`"work"` (the keyword `call` is in the work bucket) — contradicting the
claimed `time="3pm"`, `people=["Sarah"]`, `category="personal"`. -/
theorem C5_call_sarah_scenario_fails :
    ((smartParseTask "Call Sarah tomorrow at 3pm").parsed.bind (·.time)) ≠ some "3pm" ∧
    ((smartParseTask "Call Sarah tomorrow at 3pm").parsed.bind (·.people))
        ≠ some ["Sarah"] ∧
    ((smartParseTask "Call Sarah tomorrow at 3pm").parsed.bind (·.category))
        ≠ some "personal" :=
  ⟨by decide, by decide, by decide⟩

/-- Claim C5, amended: on `"Call Sarah tomorrow at 3pm"` the heuristic
parser produces `taskName = "Call Sarah at 3pm"`, `date = "tomorrow"`,
`time = null`, `people = []`, `category = "work"`, `priority = "medium"`
and `confidence = 0.8` exactly. -/
theorem C5_call_sarah_actual_result :
    ((smartParseTask "Call Sarah tomorrow at 3pm").parsed.bind (·.taskName))
        = some "Call Sarah at 3pm" ∧
    ((smartParseTask "Call Sarah tomorrow at 3pm").parsed.bind (·.date))
        = some "tomorrow" ∧
    ((smartParseTask "Call Sarah tomorrow at 3pm").parsed.bind (·.time)) = none ∧
    ((smartParseTask "Call Sarah tomorrow at 3pm").parsed.bind (·.people)) = some [] ∧
    ((smartParseTask "Call Sarah tomorrow at 3pm").parsed.bind (·.category))
        = some "work" ∧
    ((smartParseTask "Call Sarah tomorrow at 3pm").parsed.bind (·.priority))
        = some "medium" ∧
    (smartParseTask "Call Sarah tomorrow at 3pm").confidence = some 0.8 := by
  refine ⟨by decide, by decide, by decide, by decide, by decide, by decide, ?_⟩
  have hd : heurDateMatch "Call Sarah tomorrow at 3pm" = some "tomorrow" := by decide
  have ht : heurTimeMatch "Call Sarah tomorrow at 3pm" = none := by decide
  have hp : (heurPeopleRes "Call Sarah tomorrow at 3pm").1 = [] := by decide
  have hlen : "Call Sarah tomorrow at 3pm".length > 10 := by decide
  have hproj : (smartParseTask "Call Sarah tomorrow at 3pm").confidence
      = some (calculateConfidence "Call Sarah tomorrow at 3pm"
          (heurDateMatch "Call Sarah tomorrow at 3pm")
          (heurTimeMatch "Call Sarah tomorrow at 3pm")
          (heurPeopleRes "Call Sarah tomorrow at 3pm").1.length) := rfl
  rw [hproj, hd, ht, hp]
  unfold calculateConfidence
  simp only [Option.isSome_some, Option.isSome_none, List.length_nil, if_true, if_false,
    gt_iff_lt, hlen, if_pos hlen, Bool.false_eq_true, lt_irrefl]
  norm_num [min_def]

/-- Claim C6: the quick-match input `"buy milk"` is answered from the
quick table with no model call, the prefix stripped (`taskName = "milk"`),
`category = "shopping"`, `tags = ["shopping"]`, `confidence = 0.9` and
`fastResponse = true`; and an input matching no quick prefix gets `none`
from quick-match, after which the caller (with a key configured) invokes
the model-backed path. -/
theorem C6_quick_match_behavior (hasKey : Bool) (mo mo2 : Option ServerData)
    (input : String)
    (hnp : ∀ pd ∈ quickPatterns, strStartsWith (jsTrim (lowerStr input)) pd.1 = false) :
    ((processWithAISmartParse hasKey mo "buy milk").2 = false ∧
      (processWithAISmartParse hasKey mo "buy milk").1.fastResponse = some true ∧
      (processWithAISmartParse hasKey mo "buy milk").1.confidence = some 0.9 ∧
      ((processWithAISmartParse hasKey mo "buy milk").1.parsed.bind (·.taskName))
          = some "milk" ∧
      ((processWithAISmartParse hasKey mo "buy milk").1.parsed.bind (·.category))
          = some "shopping" ∧
      ((processWithAISmartParse hasKey mo "buy milk").1.parsed.bind (·.tags))
          = some ["shopping"]) ∧
    (getQuickParseResult input "smart-parse" = none ∧
      (processWithAISmartParse true mo2 input).2 = true) := by
  constructor
  · have hres : processWithAISmartParse hasKey mo "buy milk"
        = (quickParsedOf "buy milk" "buy "
            { category := some "shopping", tags := some ["shopping"],
              priority := some "medium" }, false) := by
      unfold processWithAISmartParse
      rw [show getQuickParseResult "buy milk" "smart-parse"
          = some (quickParsedOf "buy milk" "buy "
              { category := some "shopping", tags := some ["shopping"],
                priority := some "medium" }) from rfl]
      rfl
    rw [hres]
    exact ⟨rfl, rfl, rfl, by decide, by decide, by decide⟩
  · have hfind : quickPatterns.find?
        (fun pd => strStartsWith (jsTrim (lowerStr input)) pd.1) = none :=
      List.find?_eq_none.mpr (fun pd hm => by simp [hnp pd hm])
    have hqn : getQuickParseResult input "smart-parse" = none := by
      unfold getQuickParseResult
      rw [if_neg (by simp), hfind]
      rfl
    refine ⟨hqn, ?_⟩
    unfold processWithAISmartParse
    rw [hqn]
    cases mo2 with
    | none => rfl
    | some d => rfl

/-- Witness for C6 at a concrete non-matching input. -/
theorem C6_quick_match_behavior_witness :
    (processWithAISmartParse true none "buy milk").2 = false ∧
      getQuickParseResult "zzz" "smart-parse" = none :=
  ⟨(C6_quick_match_behavior true none none "zzz" (by decide)).1.1,
   (C6_quick_match_behavior true none none "zzz" (by decide)).2.1⟩

/-- Claim C7: after a miss stores a response at time `t0`, a second request
with the same normalized key at time `t1` within the five-minute window is
answered from the cache (`cached = true`, the pipeline — quick-match and
model-backed parser included — is not invoked, the cache unchanged); a
request outside the window misses and reprocesses (lazy expiry on read). -/
theorem C7_cache_law (process : String → String → ServerData) (cache : Cache)
    (t0 t1 : ℕ) (u1 f1 u2 f2 : String)
    (hu2 : u2 ≠ "") (hkey : cacheKey f1 u1 = cacheKey f2 u2)
    (hmiss : (handlerStep process cache t0 u1 f1).1.processed = true) :
    (t1 - t0 < CACHE_DURATION →
      (handlerStep process (handlerStep process cache t0 u1 f1).2 t1 u2 f2).1
          = { status := 200,
              response := some { process u1 f1 with cached := some true },
              processed := false } ∧
        (handlerStep process (handlerStep process cache t0 u1 f1).2 t1 u2 f2).2
          = (handlerStep process cache t0 u1 f1).2) ∧
    (¬ t1 - t0 < CACHE_DURATION →
      (handlerStep process (handlerStep process cache t0 u1 f1).2 t1 u2 f2).1.processed
        = true) := by
  have hsnd := handlerStep_processed_snd process cache t0 u1 f1 hmiss
  have hget : cacheGet (handlerStep process cache t0 u1 f1).2 (cacheKey f2 u2)
      = some ⟨process u1 f1, t0⟩ := by
    rw [hsnd, ← hkey]
    simp [cacheGet, cacheSet]
  have hlook := handlerStep_lookup process (handlerStep process cache t0 u1 f1).2 t1 u2 f2
    ⟨process u1 f1, t0⟩ hu2 hget
  constructor
  · intro hlt
    rw [hlook, if_pos hlt]
    exact ⟨rfl, rfl⟩
  · intro hge
    rw [hlook, if_neg hge]
    rfl

/-- Witness for C7 on a concrete put-then-get pair with differently-cased
inputs normalizing to the same key: a hit just inside the window, a miss at
exactly five minutes. -/
theorem C7_cache_law_witness :
    (handlerStep (fun _ _ => {})
        (handlerStep (fun _ _ => {}) [] 0 "buy milk tmr" "smart-parse").2
        299999 "Buy Milk tmr" "smart-parse").1
      = { status := 200,
          response := some { ({} : ServerData) with cached := some true },
          processed := false } ∧
    (handlerStep (fun _ _ => {})
        (handlerStep (fun _ _ => {}) [] 0 "buy milk tmr" "smart-parse").2
        300000 "Buy Milk tmr" "smart-parse").1.processed = true :=
  ⟨((C7_cache_law (fun _ _ => {}) [] 0 299999 "buy milk tmr" "smart-parse"
      "Buy Milk tmr" "smart-parse" (by decide) (by decide) rfl).1 (by decide)).1,
   (C7_cache_law (fun _ _ => {}) [] 0 300000 "buy milk tmr" "smart-parse"
      "Buy Milk tmr" "smart-parse" (by decide) (by decide) rfl).2 (by decide)⟩

/-- A non-2xx status maps to `RATE_LIMIT_ERROR` for 429 and `API_ERROR`
otherwise, for any retry budget (5xx attempts are retried, then classified
the same way). -/
theorem makeRequestAux_const_status (s : ℕ) (hnok : ¬ (200 ≤ s ∧ s < 300)) :
    ∀ r a, makeRequestAux (fun _ => .response s) a r
      = .error { etype := if s = 429 then .RATE_LIMIT_ERROR else .API_ERROR,
                 status := some s } := by
  intro r
  induction r with
  | zero =>
    intro a
    simp [makeRequestAux, hnok, classifyError]
  | succ n ih =>
    intro a
    by_cases h429 : s = 429
    · subst h429
      simp [makeRequestAux, hnok, shouldRetryThrown, classifyError]
    · by_cases h5 : 500 ≤ s
      · have hretry : shouldRetryThrown
            (.aiError { etype := if s = 429 then .RATE_LIMIT_ERROR else .API_ERROR,
                        status := some s }) = true := by
          simp [shouldRetryThrown, h429, h5]
        simp only [makeRequestAux, hnok, if_neg hnok, hretry, if_true]
        exact ih (a + 1)
      · have hretry : shouldRetryThrown
            (.aiError { etype := if s = 429 then .RATE_LIMIT_ERROR else .API_ERROR,
                        status := some s }) = false := by
          simp [shouldRetryThrown, h429, h5]
        simp [makeRequestAux, hnok, hretry, classifyError]

/-- Claim C8, counterexample. An HTTP 400 response is thrown as
`API_ERROR`, not the `VALIDATION_ERROR` the claim requires for non-429 4xx
statuses: `makeRequest` classifies non-ok responses itself at line 110
(429 or `API_ERROR`), and `classifyError` never sees the response. -/
theorem C8_http_400_maps_to_api_error :
    makeRequest (fun _ => .response 400)
        = .error { etype := .API_ERROR, status := some 400 } ∧
      AIErrorType.API_ERROR ≠ AIErrorType.VALIDATION_ERROR :=
  ⟨rfl, by decide⟩

/-- Claim C8, amended: the error taxonomy as implemented — HTTP 429 yields
`RATE_LIMIT_ERROR`, every other non-2xx status (4xx included) yields
`API_ERROR`, a rejection with no response yields `NETWORK_ERROR`, and the
client-side abort at the deadline yields `TIMEOUT_ERROR`. -/
theorem C8_taxonomy_as_implemented (s a r : ℕ) (f : ℕ → FetchOutcome)
    (hnok : ¬ (200 ≤ s ∧ s < 300)) (habort : f a = .abortTimeout) :
    makeRequestAux (fun _ => .response s) a r
        = .error { etype := if s = 429 then .RATE_LIMIT_ERROR else .API_ERROR,
                   status := some s } ∧
      makeRequestAux (fun _ => .networkFail) a r
        = .error { etype := .NETWORK_ERROR } ∧
      makeRequestAux f a r = .error { etype := .TIMEOUT_ERROR } := by
  refine ⟨makeRequestAux_const_status s hnok r a, ?_, ?_⟩
  · cases r <;> simp [makeRequestAux, shouldRetryThrown, classifyError]
  · cases r <;> simp [makeRequestAux, habort]

/-- Witness for C8 at concrete outcomes. -/
theorem C8_taxonomy_as_implemented_witness :
    makeRequestAux (fun _ => .response 404) 0 2
        = .error { etype := .API_ERROR, status := some 404 } ∧
      makeRequestAux (fun _ => .abortTimeout) 0 2
        = .error { etype := .TIMEOUT_ERROR } := by
  have h := C8_taxonomy_as_implemented 404 0 2 (fun _ => .abortTimeout) (by decide) rfl
  exact ⟨h.1, h.2.2⟩

end TodoAI


